import Mathlib

/-!
Verification development for the Daylite API data-extraction script
(`dlExEf.py`).  The script walks a tree of REST resources
(contact listing → contact → company / forms / notes) and writes one flat
text file per contact.  Below, each method of the `DayliteAPI` class is
shallowly embedded as a pure Lean function; network I/O is abstracted by
an environment mapping resource identifiers to responses, and the
nondeterministic completion order of the per-contact thread pools is
abstracted by a scheduler function (a list transformer which, on real
executions, permutes the submitted results).
-/

namespace Daylite

/-- Result of `DayliteAPI._make_request`.  `fail` models a
`requests.exceptions.RequestException` (the method logs and returns `None`);
`empty` models a 2xx response whose decoded JSON body is falsy
(`null`, `{}`); `val` is a 2xx response with a truthy decoded body.
API bodies are modelled by typed structures matching the shapes the
script reads; JSON scalars appearing in output are modelled
post-`str()` as Lean strings. -/
inductive Resp (α : Type) where
  | fail : Resp α
  | empty : Resp α
  | val : α → Resp α
deriving DecidableEq

/-- One element of the `/v1/contacts` listing; the script only reads its
`self` link (`contact.get("self", "")`). -/
structure ListEntry where
  self : Option String
deriving DecidableEq

/-- One element of a contact's `addresses` list; missing `city`/`state`
keys raise `KeyError` in the script, hence `Option`. -/
structure AddressJ where
  city : Option String
  state : Option String
deriving DecidableEq

/-- One element of a contact's `companies` list: a `company` link and a
`role`, each raising `KeyError` when absent. -/
structure CompanyRef where
  company : Option String
  role : Option String
deriving DecidableEq

/-- Body of the follow-up company fetch; the script reads its name key. -/
structure CompanyJ where
  name : Option String
deriving DecidableEq

/-- Value of one `extra_fields` entry: the script reads its value and its
declared display name, each through a defaulted dictionary lookup. -/
structure ExtraField where
  value : Option String
  display_name : Option String
deriving DecidableEq

/-- One element of a contact's `forms` list: the `form` link. -/
structure FormRef where
  form : Option String
deriving DecidableEq

/-- One element of a contact's `notes` list: the `note` link. -/
structure NoteRef where
  note : Option String
deriving DecidableEq

/-- One entry of a form's `values` list: `.get("name")` and
`.get("value")` (the latter rendered through `str`). -/
structure FormValue where
  name : Option String
  value : Option String
deriving DecidableEq

/-- Body of a form fetch: its name (defaulted to Unknown Form Name when
absent) and its list of values (defaulted to empty). -/
structure FormJ where
  name : Option String
  values : Option (List FormValue)
deriving DecidableEq

/-- Body of a note fetch: its title and details, each read through a
defaulted dictionary lookup. -/
structure NoteJ where
  title : Option String
  details : Option String
deriving DecidableEq

/-- Body of a `/v1/contacts/{id}` fetch, with exactly the keys the script
reads; `Option` marks keys whose absence the script handles (via `.get`
or a caught `KeyError`).  `extra_fields` is an insertion-ordered
association list, like a Python `dict`. -/
structure Contact where
  full_name : Option String
  details : Option String
  keywords : Option (List String)
  birthday : Option String
  anniversary : Option String
  addresses : Option (List AddressJ)
  companies : Option (List CompanyRef)
  extra_fields : Option (List (String × ExtraField))
  forms : Option (List FormRef)
  notes : Option (List NoteRef)
deriving DecidableEq

/-- The network environment: the responses each endpoint would return.
`contact`, `form`, `note` are keyed by resource id, `company` by the raw
link string (the script appends the company link to the base URL).
`max_workers` is the constructor argument of `DayliteAPI`. -/
structure Env where
  max_workers : Nat
  listing : Resp (List ListEntry)
  contact : String → Resp Contact
  company : String → Resp CompanyJ
  form : String → Resp FormJ
  note : String → Resp NoteJ

/-- A scheduler: reorders the results of a batch of concurrently submitted
tasks into their completion order.  Real executions of
`as_completed` yield a permutation of the submitted list; theorems about
completion-order independence take that permutation property as a
hypothesis. -/
abbrev Sched := List (Option String) → List (Option String)

/-- The one uncaught exception the embedded code paths can raise:
`ThreadPoolExecutor(max_workers=0)` raises `ValueError`, which no
`except` clause inside `_process_contact` handles. -/
inductive PyErr where
  | valueError : PyErr
deriving DecidableEq

/-- Python translate call of the display-name derivation: delete every
forward and backward slash character. -/
def stripSeps (s : String) : String :=
  String.mk (s.toList.filter (fun c => !(c == '/' || c == '\\')))

/-- Whitespace recognized by Python `str.strip()` (ASCII fragment). -/
def isPySpace (c : Char) : Bool :=
  c == ' ' || c == '\t' || c == '\n' || c == '\r' || c == '\x0B' || c == '\x0C'

/-- Python `str.strip()`. -/
def pyStrip (s : String) : String :=
  String.mk (((s.toList.dropWhile isPySpace).reverse.dropWhile isPySpace).reverse)

/-- Python `s[:n]` (character slicing). -/
def pySlice (s : String) (n : Nat) : String :=
  String.mk (s.toList.take n)

/-- Python `sep.join(pieces)`. -/
def pyJoin (sep : String) : List String → String
  | [] => ""
  | [s] => s
  | s :: t :: rest => s ++ sep ++ pyJoin sep (t :: rest)

/-- Split a character list at every occurrence of `sep` (the pieces of
Python `s.split(sep)` for a one-character separator). -/
def splitOnChar (sep : Char) : List Char → List (List Char)
  | [] => [[]]
  | c :: rest =>
    let r := splitOnChar sep rest
    if c = sep then [] :: r else (c :: r.headD []) :: r.tail

/-- The lines of a string: Python `s.split('\n')`. -/
def lines (s : String) : List String :=
  (splitOnChar '\n' s.toList).map String.mk

/-- Python `link.split('/')[-1]`. -/
def lastSegment (s : String) : String :=
  String.mk ((splitOnChar '/' s.toList).getLastD [])

/-- Substring test on character lists, for Python `sub in s`. -/
def containsSub : List Char → List Char → Bool
  | [], sub => sub.isEmpty
  | c :: rest, sub => sub.isPrefixOf (c :: rest) || containsSub rest sub

/-- Python `sub in s` for strings. -/
def pyContains (s sub : String) : Bool :=
  containsSub s.toList sub.toList

/-- The truthiness test `if future.result()` applied by the aggregation
loops: a result contributes only when it is a non-empty string (`None`,
modelled as `Option.none`, and `""` are both falsy). -/
def truthyStr : Option String → Option String
  | none => none
  | some s => if s = "" then none else some s

/-- Embeds `re.search(r"/v1/contacts/(\d+)", burl)` followed by
`.group(1)`: at the leftmost position where the literal prefix
`/v1/contacts/` is followed by at least one digit, return the maximal
digit run. -/
def searchContactId : List Char → Option String
  | [] => none
  | c :: rest =>
    if ("/v1/contacts/".toList).isPrefixOf (c :: rest) then
      let ds := ((c :: rest).drop 13).takeWhile Char.isDigit
      if ds.isEmpty then searchContactId rest else some (String.mk ds)
    else searchContactId rest

/-- Embeds `DayliteAPI.extract_ids`: on a falsy listing response return
`[]`, otherwise collect the first regex group of each entry whose `self`
link matches `/v1/contacts/(\d+)`. -/
def extract_ids (response : Resp (List ListEntry)) : List String :=
  match response with
  | .fail => []
  | .empty => []
  | .val contacts =>
    if contacts.isEmpty then []
    else contacts.filterMap (fun contact => searchContactId (contact.self.getD "").toList)

/-- The static `extra_field_names` table from the `DayliteAPI`
constructor (insertion order preserved). -/
def extra_field_names : List (String × String) :=
  [("com.marketcircle.daylite/extra1", "Model #\u0027s"),
   ("com.marketcircle.daylite/extra2", ""),
   ("com.marketcircle.daylite/extra3", "DCA/Distrib"),
   ("com.marketcircle.daylite/extra4", "Client Level"),
   ("com.marketcircle.daylite/extra5", "Meeting Freq"),
   ("com.marketcircle.daylite/extra6", "Fee Rate"),
   ("com.marketcircle.daylite/extra7", "Spouse/Kids"),
   ("com.marketcircle.daylite/extra8", "Referred By"),
   ("com.marketcircle.daylite/extra9", "Expected Rev"),
   ("com.marketcircle.daylite/extra10", "His FGA Risk"),
   ("com.marketcircle.daylite/extra11", "Her FGA Risk")]

/-- Embeds the display-name resolution of the extra-fields loop: the
override-table entry when present and truthy, else the defaulted lookup of
the declared display name, which falls back to the raw key only when the
display_name key is absent. -/
def resolveDisplayName (key : String) (field : ExtraField) : String :=
  match extra_field_names.lookup key with
  | some v => if v = "" then field.display_name.getD key else v
  | none => field.display_name.getD key

/-- Embeds the extra-fields block of `_process_contact` (lines 113-124):
when the `extra_fields` dict is truthy, a header followed by one line per
entry with a truthy `value`. -/
def extraFieldsSection (ef : Option (List (String × ExtraField))) : List String :=
  let extra_fields := ef.getD []
  if extra_fields.isEmpty then []
  else
    "\nExtra Fields:" ::
      extra_fields.filterMap (fun kf =>
        match kf.2.value with
        | none => none
        | some v =>
          if v = "" then none
          else some (" - " ++ resolveDisplayName kf.1 kf.2 ++ ": " ++ v))

/-- Embeds the address block of `_process_contact` (lines 97-102): the
first address's `city, state`, with any `KeyError`/`IndexError`
(missing key, empty list, missing city/state) mapped to the fallback. -/
def addressEntry (addresses : Option (List AddressJ)) : String :=
  match addresses with
  | some (address :: _) =>
    match address.city, address.state with
    | some city, some state => city ++ ", " ++ state
    | _, _ => "No location found"
  | _ => "No location found"

/-- Embeds the company block of `_process_contact` (lines 104-111): the
first company's role plus the name from a follow-up fetch of its
`company` link; a falsy company body yields `Unknown Company`, and any
`KeyError`/`IndexError` (missing list, empty list, missing link, missing
role, missing name in a truthy body) yields the fallback line. -/
def jobEntry (env : Env) (companies : Option (List CompanyRef)) : String :=
  match companies with
  | some (company :: _) =>
    match company.company, company.role with
    | some link, some role =>
      (match env.company link with
       | .val company_data =>
         match company_data.name with
         | some company_name => "Job: " ++ role ++ " at " ++ company_name
         | none => "No job information found"
       | _ => "Job: " ++ role ++ " at " ++ "Unknown Company")
    | _, _ => "No job information found"
  | _ => "No job information found"

/-- Embeds `DayliteAPI._process_single_form`: a falsy fetch yields `""`;
a form whose name contains `Geo Coordinates` falls off the end of the
function (Python `None`, modelled `none`); otherwise a header pair
followed by one line per value whose `value` is present and whose
stringified content has no `+`. -/
def _process_single_form (env : Env) (form_id : String) : Option String :=
  match env.form form_id with
  | .fail => some ""
  | .empty => some ""
  | .val data =>
    let form_name := data.name.getD "Unknown Form Name"
    let values := data.values.getD []
    if pyContains form_name "Geo Coordinates" then none
    else
      some (pyJoin "\n" (["\nForm Name: " ++ form_name, "\n"] ++
        values.filterMap (fun value =>
          match value.value with
          | none => none
          | some value_str =>
            if pyContains value_str "+" then none
            else some (" - " ++ value.name.getD "None" ++ ": " ++ value_str))))

/-- Embeds `DayliteAPI._process_forms`: constructing
`ThreadPoolExecutor(max_workers=min(len(form_ids), self.max_workers))`
raises `ValueError` when that bound is `0`; otherwise the truthy results,
in completion order (`sched` applied to the submission-order results),
joined by newlines. -/
def _process_forms (env : Env) (sched : Sched) (form_ids : List String) :
    Except PyErr String :=
  if min form_ids.length env.max_workers = 0 then .error .valueError
  else
    .ok (pyJoin "\n"
      ((sched (form_ids.map (fun form_id => _process_single_form env form_id))).filterMap
        truthyStr))

/-- Embeds `DayliteAPI._process_single_note`: a falsy fetch yields `""`,
otherwise the two-line block with the defaulted title and details. -/
def _process_single_note (env : Env) (note_id : String) : Option String :=
  match env.note note_id with
  | .fail => some ""
  | .empty => some ""
  | .val data =>
    some ("\n" ++ data.title.getD "No title found" ++ "\n" ++
      data.details.getD "No content found")

/-- Embeds `DayliteAPI._process_notes`, exactly parallel to
`_process_forms`. -/
def _process_notes (env : Env) (sched : Sched) (note_ids : List String) :
    Except PyErr String :=
  if min note_ids.length env.max_workers = 0 then .error .valueError
  else
    .ok (pyJoin "\n"
      ((sched (note_ids.map (fun note_id => _process_single_note env note_id))).filterMap
        truthyStr))

/-- The forms section of `_process_contact` (lines 127-133): a `KeyError`
(missing `forms` key, or a form entry without a `form` link) is caught
and yields the fallback; otherwise the ids are the links' last path
segments and the aggregation runs (possibly raising `ValueError`). -/
def formsEntry (env : Env) (sched : Sched) (data : Contact) : Except PyErr String :=
  match data.forms with
  | none => .ok "No forms found"
  | some forms =>
    match forms.mapM (fun form => form.form) with
    | none => .ok "No forms found"
    | some links => _process_forms env sched (links.map lastSegment)

/-- The notes section of `_process_contact` (lines 135-141), parallel to
`formsEntry`. -/
def notesEntry (env : Env) (sched : Sched) (data : Contact) : Except PyErr String :=
  match data.notes with
  | none => .ok "No notes found"
  | some notes =>
    match notes.mapM (fun note => note.note) with
    | none => .ok "No notes found"
    | some links => _process_notes env sched (links.map lastSegment)

/-- The `contact_info` list built by `_process_contact` (lines 90-141),
given the already-computed display name and forms/notes texts: the fixed
sequence name, details, keywords, birthday, anniversary, address, job,
then the extra-fields block, then the forms and notes texts. -/
def contactInfo (env : Env) (data : Contact) (name forms_data notes_data : String) :
    List String :=
  [name,
   data.details.getD "",
   "Keywords: " ++ pyJoin " " (data.keywords.getD []),
   "Birthday: " ++ data.birthday.getD "",
   "Anniversary: " ++ data.anniversary.getD "",
   addressEntry data.addresses,
   jobEntry env data.companies]
  ++ extraFieldsSection data.extra_fields
  ++ [forms_data, notes_data]

/-- The `contact_info` list of `_process_contact` as an exception-aware
computation: building it can raise the `ValueError` of an empty
sub-resource pool (forms first, then notes, in program order). -/
def contact_info_of (env : Env) (schedF schedN : Sched) (contact_id : String)
    (data : Contact) : Except PyErr (List String) :=
  let name := stripSeps (data.full_name.getD ("MissingName" ++ contact_id))
  match formsEntry env schedF data with
  | .error e => .error e
  | .ok forms_data =>
    match notesEntry env schedN data with
    | .error e => .error e
    | .ok notes_data => .ok (contactInfo env data name forms_data notes_data)

/-- Embeds `DayliteAPI._process_contact`.  `.ok none` is the early
`return` on a falsy detail fetch (no file written); `.error e` is an
exception escaping before the write; `.ok (some (filename, content))` is
the file write, whose content joins the truthy entries of
`contact_info` with newlines. -/
def _process_contact (env : Env) (schedF schedN : Sched) (contact_id : String) :
    Except PyErr (Option (String × String)) :=
  match env.contact contact_id with
  | .fail => .ok none
  | .empty => .ok none
  | .val data =>
    let name := stripSeps (data.full_name.getD ("MissingName" ++ contact_id))
    let filename := pyStrip (pySlice name 20) ++ ".txt"
    match contact_info_of env schedF schedN contact_id data with
    | .error e => .error e
    | .ok contact_info =>
      .ok (some (filename, pyJoin "\n" (contact_info.filter (fun s => s != ""))))

/-- What the `as_completed` loop of `process_all_contacts` records for
one dispatched contact: a completed file write, a silent skip (falsy
detail fetch), or an exception caught and logged by the
`except Exception` handler. -/
inductive ContactOutcome where
  | wrote : String → String → ContactOutcome
  | skipped : ContactOutcome
  | errorLogged : PyErr → ContactOutcome
deriving DecidableEq

/-- The per-contact dispatch loop of `process_all_contacts`: every id is
processed, each exception is contained in its own contact's outcome. -/
def runAll (env : Env) (schedF schedN : Sched) : List String → List ContactOutcome
  | [] => []
  | contact_id :: rest =>
    (match _process_contact env schedF schedN contact_id with
     | .error e => .errorLogged e
     | .ok none => .skipped
     | .ok (some fc) => .wrote fc.1 fc.2) :: runAll env schedF schedN rest

/-- Embeds `DayliteAPI.process_all_contacts`: extract the listing ids and
drive one `_process_contact` per id. -/
def process_all_contacts (env : Env) (schedF schedN : Sched) : List ContactOutcome :=
  runAll env schedF schedN (extract_ids env.listing)

/-- Embeds `main`: it only calls `process_all_contacts` (whose loop
catches every per-contact exception) and logs; no statement of `main`
can raise and `sys.exit` is never called, so the result is always `ok`. -/
def pyMain (env : Env) (schedF schedN : Sched) : Except PyErr (List ContactOutcome) :=
  .ok (process_all_contacts env schedF schedN)

/-- The process exit status: `0` when `main` returns normally, `1` when
an exception escapes it. -/
def exit_status (env : Env) (schedF schedN : Sched) : Nat :=
  match pyMain env schedF schedN with
  | .ok _ => 0
  | .error _ => 1

/-- A fully resolving sample contact: address, company, two forms (one of
them a Geo Coordinates form), one note. -/
def cW : Contact where
  full_name := some "Alice Example"
  details := some "VIP"
  keywords := some ["gold", "ski"]
  birthday := none
  anniversary := none
  addresses := some [⟨some "Boston", some "MA"⟩]
  companies := some [⟨some "/v1/companies/7", some "CEO"⟩]
  extra_fields := some [("com.marketcircle.daylite/extra3", ⟨some "X", some "dn"⟩)]
  forms := some [⟨some "/v1/forms/41"⟩, ⟨some "/v1/forms/42"⟩]
  notes := some [⟨some "/v1/notes/9"⟩, ⟨some "/v1/notes/10"⟩]

/-- A sample environment where contact `1` resolves fully and every other
contact fetch fails. -/
def envW : Env where
  max_workers := 10
  listing := .val [⟨some "/v1/contacts/1"⟩, ⟨some "/v1/contacts/2"⟩]
  contact := fun cid => if cid = "1" then .val cW else .fail
  company := fun l => if l = "/v1/companies/7" then .val ⟨some "Acme"⟩ else .fail
  form := fun fid =>
    if fid = "41" then
      .val { name := some "Geo Coordinates v2", values := some [⟨some "lat", some "42"⟩] }
    else if fid = "42" then
      .val { name := some "Intake",
             values := some [⟨some "phone", some "+1555"⟩, ⟨some "city", some "Boston"⟩] }
    else .fail
  note := fun nid =>
    if nid = "9" then .val ⟨some "Call", some "Discussed plan"⟩
    else if nid = "10" then .val ⟨none, some "Follow up"⟩
    else .empty

/-- A contact with `full_name` present but every other key absent. -/
def cBare : Contact where
  full_name := some "Bob"
  details := none
  keywords := none
  birthday := none
  anniversary := none
  addresses := none
  companies := none
  extra_fields := none
  forms := none
  notes := none

/-- Environment whose only contact is `cBare`. -/
def envBare : Env where
  max_workers := 10
  listing := .val [⟨some "/v1/contacts/1"⟩]
  contact := fun cid => if cid = "1" then .val cBare else .fail
  company := fun _ => .fail
  form := fun _ => .fail
  note := fun _ => .fail

/-- A contact whose `full_name` is 26 characters, longer than the 20
character truncation bound. -/
def cLong : Contact :=
  { cBare with full_name := some "ABCDEFGHIJKLMNOPQRSTUVWXYZ" }

/-- Environment whose only contact is `cLong`. -/
def envLong : Env :=
  { envBare with contact := fun cid => if cid = "1" then .val cLong else .fail }

/-- A form whose name is clean but one of whose values contains `+`. -/
def formPlus : FormJ where
  name := some "Client Intake"
  values := some [⟨some "phone", some "+15551234"⟩, ⟨some "city", some "Boston"⟩]

/-- Environment serving `formPlus` as form `50`. -/
def envPlus : Env :=
  { envBare with form := fun fid => if fid = "50" then .val formPlus else .fail }

/-- The variant of `formPlus` with its `+`-containing value removed. -/
def formNoPlus : FormJ where
  name := some "Client Intake"
  values := some [⟨some "city", some "Boston"⟩]

/-- Environment serving `formNoPlus` as form `51`. -/
def envNoPlus : Env :=
  { envBare with form := fun fid => if fid = "51" then .val formNoPlus else .fail }

/-- A contact whose `forms` key is present with an empty list. -/
def cEmptyForms : Contact :=
  { cBare with forms := some [] }

/-- Environment whose only contact is `cEmptyForms`. -/
def envEmptyForms : Env :=
  { envBare with contact := fun cid => if cid = "1" then .val cEmptyForms else .fail }

/-- Environment whose listing fetch fails. -/
def envNoListing : Env :=
  { envBare with listing := .fail }

theorem splitOnChar_ne_nil (sep : Char) (l : List Char) : splitOnChar sep l ≠ [] := by
  cases l with
  | nil => simp [splitOnChar]
  | cons c rest =>
    simp only [splitOnChar]
    by_cases h : c = sep <;> simp [h]

theorem splitOnChar_append (sep : Char) (xs ys : List Char) :
    splitOnChar sep (xs ++ sep :: ys) = splitOnChar sep xs ++ splitOnChar sep ys := by
  induction xs with
  | nil => simp [splitOnChar]
  | cons c rest ih =>
    simp only [List.cons_append, splitOnChar, ih]
    by_cases h : c = sep
    · simp [h]
      exact ih
    · simp only [if_neg h]
      cases hr : splitOnChar sep rest with
      | nil => exact absurd hr (splitOnChar_ne_nil sep rest)
      | cons l ls => simp [ih, hr]

theorem lines_append_nl (a b : String) : lines (a ++ "\n" ++ b) = lines a ++ lines b := by
  unfold lines
  have h : (a ++ "\n" ++ b).toList = a.toList ++ '\n' :: b.toList := by
    show (a ++ "\n" ++ b).data = a.data ++ '\n' :: b.data
    simp [String.data_append]
  rw [h, splitOnChar_append, List.map_append]

theorem lines_pyJoin : ∀ l : List String, l ≠ [] →
    lines (pyJoin "\n" l) = (l.map lines).flatten
  | [s], _ => by simp [pyJoin]
  | s :: t :: rest, _ => by
    have ih := lines_pyJoin (t :: rest) (by simp)
    show lines (s ++ "\n" ++ pyJoin "\n" (t :: rest)) = _
    rw [lines_append_nl, ih]
    simp

theorem lines_pyJoin_perm {l₁ l₂ : List String} (h : l₁.Perm l₂) :
    (lines (pyJoin "\n" l₁)).Perm (lines (pyJoin "\n" l₂)) := by
  rcases eq_or_ne l₁ [] with rfl | h1
  · rw [h.symm.eq_nil]
  · have h2 : l₂ ≠ [] := fun hc => h1 (h.trans (hc ▸ List.Perm.refl _)).eq_nil
    rw [lines_pyJoin l₁ h1, lines_pyJoin l₂ h2]
    exact ((h.map lines).flatten)

theorem pyJoin_ne_empty : ∀ l : List String, (∀ s ∈ l, s ≠ "") → l ≠ [] →
    pyJoin "\n" l ≠ ""
  | [s], h, _ => h s (by simp)
  | s :: t :: rest, h, _ => by
    intro hc
    have hlen := congrArg String.length hc
    simp [pyJoin, String.length_append] at hlen
    exact (by decide : ("\n" : String).length ≠ 0) hlen.1.2

theorem pyJoin_eq_empty_iff (l : List String) (h : ∀ s ∈ l, s ≠ "") :
    pyJoin "\n" l = "" ↔ l = [] := by
  constructor
  · intro hc
    by_contra hne
    exact pyJoin_ne_empty l h hne hc
  · rintro rfl
    rfl

theorem mem_lines_pyJoin {l : List String} {s x : String}
    (hs : s ∈ l) (hx : x ∈ lines s) : x ∈ lines (pyJoin "\n" l) := by
  have hne : l ≠ [] := List.ne_nil_of_mem hs
  rw [lines_pyJoin l hne]
  exact List.mem_flatten.mpr ⟨lines s, List.mem_map_of_mem lines hs, hx⟩

theorem mem_filterMap_truthy {l : List (Option String)} {s : String}
    (h : s ∈ l.filterMap truthyStr) : s ≠ "" := by
  rcases List.mem_filterMap.mp h with ⟨o, _, ho⟩
  cases o with
  | none => simp [truthyStr] at ho
  | some t =>
    by_cases ht : t = ""
    · simp [truthyStr, ht] at ho
    · simp only [truthyStr, if_neg ht, Option.some.injEq] at ho
      exact ho ▸ ht

theorem agg_rel (results : List (Option String)) (s1 s2 : Sched)
    (h1 : ∀ l, (s1 l).Perm l) (h2 : ∀ l, (s2 l).Perm l) :
    (lines (pyJoin "\n" ((s1 results).filterMap truthyStr))).Perm
        (lines (pyJoin "\n" ((s2 results).filterMap truthyStr))) ∧
      (pyJoin "\n" ((s1 results).filterMap truthyStr) = "" ↔
        pyJoin "\n" ((s2 results).filterMap truthyStr) = "") := by
  have hp : ((s1 results).filterMap truthyStr).Perm ((s2 results).filterMap truthyStr) :=
    ((h1 results).trans (h2 results).symm).filterMap truthyStr
  refine ⟨lines_pyJoin_perm hp, ?_⟩
  rw [pyJoin_eq_empty_iff _ (fun s hs => mem_filterMap_truthy hs),
    pyJoin_eq_empty_iff _ (fun s hs => mem_filterMap_truthy hs)]
  exact ⟨fun hc => ((hc ▸ hp).symm).eq_nil, fun hc => (hc ▸ hp).eq_nil⟩

/-- Outcomes of `formsEntry` under two valid completion schedulers: they
either both raise the `ValueError`, or both succeed with texts whose
lines are permutations of one another and which are empty together. -/
theorem formsEntry_rel (env : Env) (data : Contact) (s1 s2 : Sched)
    (h1 : ∀ l, (s1 l).Perm l) (h2 : ∀ l, (s2 l).Perm l) :
    (formsEntry env s1 data = .error .valueError ∧
        formsEntry env s2 data = .error .valueError) ∨
      ∃ f1 f2, formsEntry env s1 data = .ok f1 ∧ formsEntry env s2 data = .ok f2 ∧
        (lines f1).Perm (lines f2) ∧ (f1 = "" ↔ f2 = "") := by
  cases hf : data.forms with
  | none =>
    refine Or.inr ⟨"No forms found", "No forms found", ?_, ?_, List.Perm.refl _, Iff.rfl⟩ <;>
      simp only [formsEntry, hf]
  | some forms =>
    cases hm : forms.mapM (fun form => form.form) with
    | none =>
      refine Or.inr ⟨"No forms found", "No forms found", ?_, ?_, List.Perm.refl _, Iff.rfl⟩ <;>
        simp only [formsEntry, hf, hm]
    | some links =>
      have e1 : formsEntry env s1 data = _process_forms env s1 (links.map lastSegment) := by
        simp only [formsEntry, hf, hm]
      have e2 : formsEntry env s2 data = _process_forms env s2 (links.map lastSegment) := by
        simp only [formsEntry, hf, hm]
      by_cases hmin : min (links.map lastSegment).length env.max_workers = 0
      · exact Or.inl ⟨by rw [e1]; unfold _process_forms; rw [if_pos hmin],
          by rw [e2]; unfold _process_forms; rw [if_pos hmin]⟩
      · rcases agg_rel ((links.map lastSegment).map
            (fun form_id => _process_single_form env form_id)) s1 s2 h1 h2 with ⟨hl, he⟩
        exact Or.inr ⟨_, _, by rw [e1]; unfold _process_forms; rw [if_neg hmin],
          by rw [e2]; unfold _process_forms; rw [if_neg hmin], hl, he⟩

/-- Outcomes of `notesEntry` under two valid completion schedulers,
exactly parallel to `formsEntry_rel`. -/
theorem notesEntry_rel (env : Env) (data : Contact) (s1 s2 : Sched)
    (h1 : ∀ l, (s1 l).Perm l) (h2 : ∀ l, (s2 l).Perm l) :
    (notesEntry env s1 data = .error .valueError ∧
        notesEntry env s2 data = .error .valueError) ∨
      ∃ f1 f2, notesEntry env s1 data = .ok f1 ∧ notesEntry env s2 data = .ok f2 ∧
        (lines f1).Perm (lines f2) ∧ (f1 = "" ↔ f2 = "") := by
  cases hf : data.notes with
  | none =>
    refine Or.inr ⟨"No notes found", "No notes found", ?_, ?_, List.Perm.refl _, Iff.rfl⟩ <;>
      simp only [notesEntry, hf]
  | some notes =>
    cases hm : notes.mapM (fun note => note.note) with
    | none =>
      refine Or.inr ⟨"No notes found", "No notes found", ?_, ?_, List.Perm.refl _, Iff.rfl⟩ <;>
        simp only [notesEntry, hf, hm]
    | some links =>
      have e1 : notesEntry env s1 data = _process_notes env s1 (links.map lastSegment) := by
        simp only [notesEntry, hf, hm]
      have e2 : notesEntry env s2 data = _process_notes env s2 (links.map lastSegment) := by
        simp only [notesEntry, hf, hm]
      by_cases hmin : min (links.map lastSegment).length env.max_workers = 0
      · exact Or.inl ⟨by rw [e1]; unfold _process_notes; rw [if_pos hmin],
          by rw [e2]; unfold _process_notes; rw [if_pos hmin]⟩
      · rcases agg_rel ((links.map lastSegment).map
            (fun note_id => _process_single_note env note_id)) s1 s2 h1 h2 with ⟨hl, he⟩
        exact Or.inr ⟨_, _, by rw [e1]; unfold _process_notes; rw [if_neg hmin],
          by rw [e2]; unfold _process_notes; rw [if_neg hmin], hl, he⟩

theorem forall2_filter_tail (pre : List String) (f1 n1 f2 n2 : String)
    (hfp : (lines f1).Perm (lines f2)) (hnp : (lines n1).Perm (lines n2))
    (hfe : f1 = "" ↔ f2 = "") (hne : n1 = "" ↔ n2 = "") :
    List.Forall₂ (fun a b => (lines a).Perm (lines b))
      ((pre ++ [f1, n1]).filter (fun s => s != ""))
      ((pre ++ [f2, n2]).filter (fun s => s != "")) := by
  rw [List.filter_append, List.filter_append]
  have hA : List.Forall₂ (fun a b => (lines a).Perm (lines b))
      (pre.filter (fun s => s != "")) (pre.filter (fun s => s != "")) :=
    List.forall₂_same.mpr (fun x _ => List.Perm.refl _)
  refine List.rel_append hA ?_
  by_cases h1 : f1 = ""
  · have h2 : f2 = "" := hfe.mp h1
    subst h1
    subst h2
    by_cases h3 : n1 = ""
    · have h4 : n2 = "" := hne.mp h3
      subst h3
      subst h4
      simp
    · have h4 : n2 ≠ "" := fun hc => h3 (hne.mpr hc)
      simp [h3, h4]
      exact hnp
  · have h2 : f2 ≠ "" := fun hc => h1 (hfe.mpr hc)
    by_cases h3 : n1 = ""
    · have h4 : n2 = "" := hne.mp h3
      subst h3
      subst h4
      simp [h1, h2]
      exact hfp
    · have h4 : n2 ≠ "" := fun hc => h3 (hne.mpr hc)
      simp [h1, h2, h3, h4]
      exact ⟨hfp, hnp⟩

/-- C1: For every contact document produced by `_process_contact`, the
textual sections appear in the fixed order (name, details, keywords,
birthday, anniversary, address, job, extra fields, forms, notes) for
every possible completion order of the concurrent form and note fetches:
two runs under any two valid completion schedulers fail alike, skip
alike, write the same filename, and produce `contact_info` lists that
agree on every section except the final forms and notes texts, whose
lines are permutations of one another; after dropping falsy sections,
the surviving sections correspond pointwise with line-permuted texts, so
which sections appear and their relative order never change. -/
theorem c1_section_order_invariant (env : Env) (cid : String)
    (sF1 sF2 sN1 sN2 : Sched)
    (hF1 : ∀ l, (sF1 l).Perm l) (hF2 : ∀ l, (sF2 l).Perm l)
    (hN1 : ∀ l, (sN1 l).Perm l) (hN2 : ∀ l, (sN2 l).Perm l) :
    (∀ e, _process_contact env sF1 sN1 cid = .error e ↔
        _process_contact env sF2 sN2 cid = .error e) ∧
      (_process_contact env sF1 sN1 cid = .ok none ↔
        _process_contact env sF2 sN2 cid = .ok none) ∧
      (∀ fn1 doc1 fn2 doc2,
        _process_contact env sF1 sN1 cid = .ok (some (fn1, doc1)) →
        _process_contact env sF2 sN2 cid = .ok (some (fn2, doc2)) → fn1 = fn2) ∧
      (∀ data info1 info2, env.contact cid = .val data →
        contact_info_of env sF1 sN1 cid data = .ok info1 →
        contact_info_of env sF2 sN2 cid data = .ok info2 →
        (∃ pre f1 n1 f2 n2,
            info1 = pre ++ [f1, n1] ∧ info2 = pre ++ [f2, n2] ∧
            (lines f1).Perm (lines f2) ∧ (lines n1).Perm (lines n2)) ∧
          List.Forall₂ (fun a b => (lines a).Perm (lines b))
            (info1.filter (fun s => s != "")) (info2.filter (fun s => s != ""))) := by
  have key : ∀ data,
      (contact_info_of env sF1 sN1 cid data = .error .valueError ∧
        contact_info_of env sF2 sN2 cid data = .error .valueError) ∨
      ∃ pre f1 n1 f2 n2,
        contact_info_of env sF1 sN1 cid data = .ok (pre ++ [f1, n1]) ∧
        contact_info_of env sF2 sN2 cid data = .ok (pre ++ [f2, n2]) ∧
        (lines f1).Perm (lines f2) ∧ (lines n1).Perm (lines n2) ∧
        (f1 = "" ↔ f2 = "") ∧ (n1 = "" ↔ n2 = "") := by
    intro data
    rcases formsEntry_rel env data sF1 sF2 hF1 hF2 with ⟨hf1, hf2⟩ | ⟨f1, f2, hf1, hf2, hfp, hfe⟩
    · left
      constructor <;> simp only [contact_info_of, hf1, hf2]
    · rcases notesEntry_rel env data sN1 sN2 hN1 hN2 with ⟨hn1, hn2⟩ |
        ⟨n1, n2, hn1, hn2, hnp, hne⟩
      · left
        constructor <;> simp only [contact_info_of, hf1, hf2, hn1, hn2]
      · right
        refine ⟨[stripSeps (data.full_name.getD ("MissingName" ++ cid)),
            data.details.getD "",
            "Keywords: " ++ pyJoin " " (data.keywords.getD []),
            "Birthday: " ++ data.birthday.getD "",
            "Anniversary: " ++ data.anniversary.getD "",
            addressEntry data.addresses,
            jobEntry env data.companies] ++ extraFieldsSection data.extra_fields,
          f1, n1, f2, n2, ?_, ?_, hfp, hnp, hfe, hne⟩ <;>
          simp [contact_info_of, hf1, hf2, hn1, hn2, contactInfo]
  cases hc : env.contact cid with
  | fail =>
    refine ⟨fun e => ?_, ?_, fun fn1 doc1 fn2 doc2 hr1 hr2 => ?_,
        fun data info1 info2 hd h1 h2 => ?_⟩ <;>
      simp_all [_process_contact, hc]
  | empty =>
    refine ⟨fun e => ?_, ?_, fun fn1 doc1 fn2 doc2 hr1 hr2 => ?_,
        fun data info1 info2 hd h1 h2 => ?_⟩ <;>
      simp_all [_process_contact, hc]
  | val data =>
    rcases key data with ⟨he1, he2⟩ | ⟨pre, f1, n1, f2, n2, h1, h2, hfp, hnp, hfe, hne⟩
    · refine ⟨fun e => ?_, ?_, fun fn1 doc1 fn2 doc2 hr1 hr2 => ?_,
          fun data' info1 info2 hd hi1 hi2 => ?_⟩
      · simp only [_process_contact, hc, he1, he2]
      · simp only [_process_contact, hc, he1, he2]
      · simp only [_process_contact, hc, he1, he2] at hr1
        exact absurd hr1 (by simp)
      · have hdd : data = data' := by
          injection hd
        subst hdd
        rw [hi1] at he1
        exact absurd he1 (by simp)
    · refine ⟨fun e => ?_, ?_, fun fn1 doc1 fn2 doc2 hr1 hr2 => ?_,
          fun data' info1 info2 hd hi1 hi2 => ?_⟩
      · simp [_process_contact, hc, h1, h2]
      · simp [_process_contact, hc, h1, h2]
      · simp only [_process_contact, hc, h1, h2, Except.ok.injEq, Option.some.injEq,
          Prod.mk.injEq] at hr1 hr2
        rw [← hr1.1, ← hr2.1]
      · have hdd : data = data' := by
          injection hd
        subst hdd
        rw [hi1] at h1
        rw [hi2] at h2
        injection h1 with h1'
        injection h2 with h2'
        subst h1'
        subst h2'
        exact ⟨⟨pre, f1, n1, f2, n2, rfl, rfl, hfp, hnp⟩,
          forall2_filter_tail pre f1 n1 f2 n2 hfp hnp hfe hne⟩

/-- Witness for C1: the invariance theorem instantiated at the sample
environment `envW`, contact `1`, with the identity scheduler against the
list-reversal scheduler (both yield valid completion orders). -/
theorem c1_witness :
    (∀ e, _process_contact envW id id "1" = .error e ↔
        _process_contact envW List.reverse List.reverse "1" = .error e) ∧
      (_process_contact envW id id "1" = .ok none ↔
        _process_contact envW List.reverse List.reverse "1" = .ok none) ∧
      (∀ fn1 doc1 fn2 doc2,
        _process_contact envW id id "1" = .ok (some (fn1, doc1)) →
        _process_contact envW List.reverse List.reverse "1" = .ok (some (fn2, doc2)) →
        fn1 = fn2) ∧
      (∀ data info1 info2, envW.contact "1" = .val data →
        contact_info_of envW id id "1" data = .ok info1 →
        contact_info_of envW List.reverse List.reverse "1" data = .ok info2 →
        (∃ pre f1 n1 f2 n2,
            info1 = pre ++ [f1, n1] ∧ info2 = pre ++ [f2, n2] ∧
            (lines f1).Perm (lines f2) ∧ (lines n1).Perm (lines n2)) ∧
          List.Forall₂ (fun a b => (lines a).Perm (lines b))
            (info1.filter (fun s => s != "")) (info2.filter (fun s => s != ""))) :=
  c1_section_order_invariant envW "1" id List.reverse id List.reverse
    (fun l => List.Perm.refl l) (fun l => l.reverse_perm)
    (fun l => List.Perm.refl l) (fun l => l.reverse_perm)

/-- C6: if a contact's `forms` (or `notes`) key is present with an empty
list, the aggregation constructs a pool with `min(0, max_workers) = 0`
workers, raising a `ValueError` that escapes `_process_contact` before
the file write, so the contact yields an error outcome and no file. -/
theorem c6_empty_subresource_error (env : Env) (sF sN : Sched) (cid : String)
    (data : Contact) (hc : env.contact cid = .val data)
    (h : data.forms = some [] ∨ data.notes = some []) :
    _process_contact env sF sN cid = .error .valueError ∧
      runAll env sF sN [cid] = [.errorLogged .valueError] := by
  have herr : contact_info_of env sF sN cid data = .error .valueError := by
    rcases h with hf | hn
    · have hfe : formsEntry env sF data = .error .valueError := by
        have hm : List.mapM (fun form => form.form) ([] : List FormRef) = some [] := rfl
        simp only [formsEntry, hf, hm]
        simp [_process_forms]
      simp only [contact_info_of, hfe]
    · cases hfe : formsEntry env sF data with
      | error e =>
        cases e
        simp only [contact_info_of, hfe]
      | ok fd =>
        have hne : notesEntry env sN data = .error .valueError := by
          have hm : List.mapM (fun note => note.note) ([] : List NoteRef) = some [] := rfl
          simp only [notesEntry, hn, hm]
          simp [_process_notes]
        simp only [contact_info_of, hfe, hne]
  have hp : _process_contact env sF sN cid = .error .valueError := by
    simp only [_process_contact, hc, herr]
  exact ⟨hp, by simp only [runAll, hp]⟩

/-- Witness for C6: a concrete contact whose `forms` list is present but
empty is logged as a `ValueError` and produces no file. -/
theorem c6_witness :
    _process_contact envEmptyForms id id "1" = .error .valueError ∧
      runAll envEmptyForms id id ["1"] = [.errorLogged .valueError] :=
  c6_empty_subresource_error envEmptyForms id id "1" cEmptyForms (by rfl) (Or.inl rfl)

/-- C7: the orchestrator `process_all_contacts` never exits early: the
dispatch loop produces exactly one outcome per dispatched contact id, a
batch splits into independent sub-batches (so a failing contact never
prevents the remaining contacts from being processed), and the outcome
recorded at position `i` is exactly what processing that contact alone
would record, whatever happens to the others. -/
theorem c7_no_early_exit (env : Env) (sF sN : Sched) :
    (∀ ids, (runAll env sF sN ids).length = ids.length) ∧
      (∀ ids1 ids2, runAll env sF sN (ids1 ++ ids2) =
        runAll env sF sN ids1 ++ runAll env sF sN ids2) ∧
      (∀ ids i (h : i < ids.length) (h' : i < (runAll env sF sN ids).length),
        [(runAll env sF sN ids).get ⟨i, h'⟩] = runAll env sF sN [ids.get ⟨i, h⟩]) := by
  have hlen : ∀ ids, (runAll env sF sN ids).length = ids.length := by
    intro ids
    induction ids with
    | nil => rfl
    | cons x rest ih => simp [runAll, ih]
  refine ⟨hlen, ?_, ?_⟩
  · intro ids1 ids2
    induction ids1 with
    | nil => rfl
    | cons x rest ih => simp [runAll, ih]
  · intro ids
    induction ids with
    | nil =>
      intro i h
      exact absurd h (by simp)
    | cons x rest ih =>
      intro i h h'
      cases i with
      | zero => rfl
      | succ j =>
        have hj : j < rest.length := by simpa using h
        have hj' : j < (runAll env sF sN rest).length := by
          rw [hlen]
          exact hj
        have hstep := ih j hj hj'
        simpa [runAll] using hstep

/-- Witness for C7: the orchestrator properties at the sample environment
with a two-contact batch whose second contact fails its detail fetch. -/
theorem c7_witness :
    (runAll envW id id ["1", "2"]).length = 2 ∧
      runAll envW id id (["1"] ++ ["2"]) = runAll envW id id ["1"] ++ runAll envW id id ["2"] ∧
      [(runAll envW id id ["1", "2"]).get ⟨1, by simp [runAll]⟩] =
        runAll envW id id [(["1", "2"] : List String).get ⟨1, by decide⟩] := by
  obtain ⟨hl, ha, hg⟩ := c7_no_early_exit envW id id
  exact ⟨hl ["1", "2"], ha ["1"] ["2"], hg ["1", "2"] 1 (by decide) (by simp [runAll])⟩

/-- C8: a contact record whose `addresses` key is absent, or whose
`addresses` list is empty, yields the fallback line `No location found`,
which then appears as a line of any document written for that contact. -/
theorem c8_no_location_fallback (env : Env) (sF sN : Sched) (cid : String)
    (data : Contact) (fn doc : String)
    (hc : env.contact cid = .val data)
    (ha : data.addresses = none ∨ data.addresses = some []) :
    addressEntry data.addresses = "No location found" ∧
      (_process_contact env sF sN cid = .ok (some (fn, doc)) →
        "No location found" ∈ lines doc) := by
  have hae : addressEntry data.addresses = "No location found" := by
    rcases ha with h | h <;> simp [addressEntry, h]
  refine ⟨hae, fun hr => ?_⟩
  simp only [_process_contact, hc] at hr
  cases hco : contact_info_of env sF sN cid data with
  | error e =>
    rw [hco] at hr
    exact absurd hr (by simp)
  | ok info =>
    rw [hco] at hr
    simp only [Except.ok.injEq, Option.some.injEq, Prod.mk.injEq] at hr
    obtain ⟨-, hdoc⟩ := hr
    have hinfo : ∃ nm fd nd, info = contactInfo env data nm fd nd := by
      simp only [contact_info_of] at hco
      cases hf : formsEntry env sF data with
      | error e =>
        rw [hf] at hco
        exact absurd hco (by simp)
      | ok fd =>
        rw [hf] at hco
        cases hn : notesEntry env sN data with
        | error e =>
          rw [hn] at hco
          exact absurd hco (by simp)
        | ok nd =>
          rw [hn] at hco
          simp only [Except.ok.injEq] at hco
          exact ⟨stripSeps (data.full_name.getD ("MissingName" ++ cid)), fd, nd, hco.symm⟩
    obtain ⟨nm, fd, nd, rfl⟩ := hinfo
    have hmem : "No location found" ∈ contactInfo env data nm fd nd := by
      unfold contactInfo
      rw [hae]
      simp
    have hmemf : "No location found" ∈
        (contactInfo env data nm fd nd).filter (fun s => s != "") :=
      List.mem_filter.mpr ⟨hmem, by decide⟩
    rw [← hdoc]
    exact mem_lines_pyJoin hmemf (by decide)

/-- Witness for C8: the bare contact (no `addresses` key) gets the
fallback line, and that line occurs in its written document. -/
theorem c8_witness :
    addressEntry cBare.addresses = "No location found" ∧
      "No location found" ∈ lines
        ("Bob\nKeywords: \nBirthday: \nAnniversary: \nNo location found\nNo job information found\nNo forms found\nNo notes found") :=
  ⟨(c8_no_location_fallback envBare id id "1" cBare "Bob.txt"
      ("Bob\nKeywords: \nBirthday: \nAnniversary: \nNo location found\nNo job information found\nNo forms found\nNo notes found")
      (by rfl) (Or.inl rfl)).1,
    (c8_no_location_fallback envBare id id "1" cBare "Bob.txt"
      ("Bob\nKeywords: \nBirthday: \nAnniversary: \nNo location found\nNo job information found\nNo forms found\nNo notes found")
      (by rfl) (Or.inl rfl)).2 (by rfl)⟩

/-- C10: a fetch whose HTTP call succeeds but whose decoded body is falsy
is treated exactly like a failed fetch: `extract_ids` returns no ids for
a failed, null, or empty listing alike; `_process_contact` skips the
contact (no file) on a failed or empty detail body alike; and a failed or
empty company body alike yields `Unknown Company` in the job line. -/
theorem c10_falsy_as_failure :
    (extract_ids .fail = [] ∧ extract_ids .empty = [] ∧ extract_ids (.val []) = []) ∧
      (∀ env sF sN cid, (env.contact cid = .fail ∨ env.contact cid = .empty) →
        _process_contact env sF sN cid = .ok none) ∧
      (∀ env link role, (env.company link = .fail ∨ env.company link = .empty) →
        jobEntry env (some [⟨some link, some role⟩]) =
          "Job: " ++ role ++ " at " ++ "Unknown Company") := by
  refine ⟨⟨rfl, rfl, rfl⟩, ?_, ?_⟩
  · rintro env sF sN cid (hc | hc) <;> simp [_process_contact, hc]
  · rintro env link role (hc | hc) <;> simp [jobEntry, hc]

/-- Witness for C10: in the bare environment, contact `2` fails its
detail fetch and is skipped, and a failing company link yields the
`Unknown Company` job line. -/
theorem c10_witness :
    _process_contact envBare id id "2" = .ok none ∧
      jobEntry envBare (some [⟨some "L", some "CEO"⟩]) =
        "Job: " ++ "CEO" ++ " at " ++ "Unknown Company" := by
  obtain ⟨-, h2, h3⟩ := c10_falsy_as_failure
  exact ⟨h2 envBare id id "2" (Or.inl rfl), h3 envBare "L" "CEO" (Or.inl rfl)⟩

theorem string_eq_empty_of_length (s : String) (h : s.length = 0) : s = "" := by
  cases s with
  | mk data =>
    cases data with
    | nil => rfl
    | cons c cs => simp [String.length] at h

theorem append_ne_empty_left {a : String} (b : String) (ha : a ≠ "") : a ++ b ≠ "" := by
  intro hc
  have hl := congrArg String.length hc
  rw [String.length_append] at hl
  have h0 : ("" : String).length = 0 := rfl
  exact ha (string_eq_empty_of_length a (by omega))

/-- C2 counterexample: the bare contact has no keywords, birthday or
anniversary, yet its written document contains the placeholder lines
`Keywords: `, `Birthday: ` and `Anniversary: ` — the claim that no line
is emitted for these absent fields fails. -/
theorem c2_counterexample :
    cBare.keywords = none ∧ cBare.birthday = none ∧ cBare.anniversary = none ∧
      _process_contact envBare id id "1" = .ok (some ("Bob.txt",
        "Bob\nKeywords: \nBirthday: \nAnniversary: \nNo location found\nNo job information found\nNo forms found\nNo notes found")) ∧
      "Keywords: " ∈ lines
        "Bob\nKeywords: \nBirthday: \nAnniversary: \nNo location found\nNo job information found\nNo forms found\nNo notes found" ∧
      "Birthday: " ∈ lines
        "Bob\nKeywords: \nBirthday: \nAnniversary: \nNo location found\nNo job information found\nNo forms found\nNo notes found" ∧
      "Anniversary: " ∈ lines
        "Bob\nKeywords: \nBirthday: \nAnniversary: \nNo location found\nNo job information found\nNo forms found\nNo notes found" :=
  ⟨rfl, rfl, rfl, by rfl, by decide, by decide, by decide⟩

/-- C2 amended: entries of `contact_info` that are empty strings (in
particular an absent `details` field) are dropped by the truthiness
filter, so no blank line is emitted for them; but the keywords, birthday
and anniversary entries always carry their literal prefix, so when those
fields are absent the document still contains the placeholder lines
`Keywords: `, `Birthday: ` and `Anniversary: `. -/
theorem c2_placeholders (env : Env) (data : Contact) (name fd nd : String)
    (hk : data.keywords = none) (hb : data.birthday = none)
    (ha : data.anniversary = none) :
    "" ∉ (contactInfo env data name fd nd).filter (fun s => s != "") ∧
      "Keywords: " ∈ (contactInfo env data name fd nd).filter (fun s => s != "") ∧
      "Birthday: " ∈ (contactInfo env data name fd nd).filter (fun s => s != "") ∧
      "Anniversary: " ∈ (contactInfo env data name fd nd).filter (fun s => s != "") := by
  have hK : "Keywords: " ++ pyJoin " " (data.keywords.getD []) = "Keywords: " := by
    rw [hk]
    decide
  have hB : "Birthday: " ++ data.birthday.getD "" = "Birthday: " := by
    rw [hb]
    decide
  have hA : "Anniversary: " ++ data.anniversary.getD "" = "Anniversary: " := by
    rw [ha]
    decide
  refine ⟨fun hc => ?_, ?_, ?_, ?_⟩
  · have := (List.mem_filter.mp hc).2
    simp at this
  · refine List.mem_filter.mpr ⟨?_, by decide⟩
    unfold contactInfo
    rw [hK]
    simp
  · refine List.mem_filter.mpr ⟨?_, by decide⟩
    unfold contactInfo
    rw [hB]
    simp
  · refine List.mem_filter.mpr ⟨?_, by decide⟩
    unfold contactInfo
    rw [hA]
    simp

/-- Witness for the amended C2 at the bare contact. -/
theorem c2_witness :
    "" ∉ (contactInfo envBare cBare "Bob" "No forms found" "No notes found").filter
        (fun s => s != "") ∧
      "Keywords: " ∈ (contactInfo envBare cBare "Bob" "No forms found" "No notes found").filter
        (fun s => s != "") ∧
      "Birthday: " ∈ (contactInfo envBare cBare "Bob" "No forms found" "No notes found").filter
        (fun s => s != "") ∧
      "Anniversary: " ∈ (contactInfo envBare cBare "Bob" "No forms found" "No notes found").filter
        (fun s => s != "") :=
  c2_placeholders envBare cBare "Bob" "No forms found" "No notes found" rfl rfl rfl

/-- C3 counterexample: a form whose name is clean but one of whose values
contains `+` still contributes a non-empty block to the aggregated forms
text (only the `+` value's own line is dropped), refuting the claim that
such a form contributes nothing. -/
theorem c3_counterexample :
    pyContains "+15551234" "+" = true ∧
      _process_single_form envPlus "50" =
        some "\nForm Name: Client Intake\n\n\n - city: Boston" ∧
      _process_forms envPlus id ["50"] =
        .ok "\nForm Name: Client Intake\n\n\n - city: Boston" ∧
      ("\nForm Name: Client Intake\n\n\n - city: Boston" : String) ≠ "" :=
  ⟨by decide, by rfl, by rfl, by decide⟩

/-- C3 amended: a fetched form contributes nothing iff its name contains
the literal substring `Geo Coordinates` (then even non-empty values are
discarded); otherwise the form always contributes a non-empty block, and
a value whose stringified content contains `+` only has its own line
omitted: removing such a value from the form leaves the form's
contribution unchanged. -/
theorem c3_form_filtering (env env2 : Env) (fid fid2 : String) (d : FormJ)
    (hd : env.form fid = .val d) :
    (pyContains (d.name.getD "Unknown Form Name") "Geo Coordinates" = true →
      _process_single_form env fid = none) ∧
      (pyContains (d.name.getD "Unknown Form Name") "Geo Coordinates" = false →
        ∃ s, _process_single_form env fid = some s ∧ s ≠ "") ∧
      (∀ pre v post vs, d.values = some (pre ++ v :: post) → v.value = some vs →
        pyContains vs "+" = true →
        env2.form fid2 = .val { name := d.name, values := some (pre ++ post) } →
        _process_single_form env fid = _process_single_form env2 fid2) := by
  refine ⟨fun hg => ?_, fun hg => ?_, fun pre v post vs hval hvv hplus hd2 => ?_⟩
  · simp [_process_single_form, hd, hg]
  · refine ⟨pyJoin "\n" (["\nForm Name: " ++ d.name.getD "Unknown Form Name", "\n"] ++
      (d.values.getD []).filterMap (fun value =>
        match value.value with
        | none => none
        | some value_str =>
          if pyContains value_str "+" then none
          else some (" - " ++ value.name.getD "None" ++ ": " ++ value_str))), ?_, ?_⟩
    · simp [_process_single_form, hd, hg]
    · exact append_ne_empty_left _
        (append_ne_empty_left _ (append_ne_empty_left _ (by decide)))
  · have hgv : (fun value =>
        match value.value with
        | none => none
        | some value_str =>
          if pyContains value_str "+" then none
          else some (" - " ++ value.name.getD "None" ++ ": " ++ value_str)) v =
          (none : Option String) := by
      simp [hvv, hplus]
    simp [_process_single_form, hd, hd2, hval, List.filterMap_append, List.filterMap_cons, hgv]

/-- Witness for the amended C3: the Geo Coordinates form of `envW`
contributes nothing despite a non-empty value, and removing the
`+`-containing value from `formPlus` leaves its contribution unchanged. -/
theorem c3_witness :
    _process_single_form envW "41" = none ∧
      _process_single_form envPlus "50" = _process_single_form envNoPlus "51" :=
  ⟨(c3_form_filtering envW envW "41" "41"
      ⟨some "Geo Coordinates v2", some [⟨some "lat", some "42"⟩]⟩ (by rfl)).1 (by decide),
    (c3_form_filtering envPlus envNoPlus "50" "51" formPlus (by rfl)).2.2
      [] ⟨some "phone", some "+15551234"⟩ [⟨some "city", some "Boston"⟩] "+15551234"
      rfl rfl (by decide) (by rfl)⟩

/-- C4 counterexample: for a 26-character name the document header is the
full untruncated name while the filename stem is its 20-character
truncation, so the same string is not used for both. -/
theorem c4_counterexample :
    _process_contact envLong id id "1" = .ok (some ("ABCDEFGHIJKLMNOPQRST.txt",
        "ABCDEFGHIJKLMNOPQRSTUVWXYZ\nKeywords: \nBirthday: \nAnniversary: \nNo location found\nNo job information found\nNo forms found\nNo notes found")) ∧
      (lines
        "ABCDEFGHIJKLMNOPQRSTUVWXYZ\nKeywords: \nBirthday: \nAnniversary: \nNo location found\nNo job information found\nNo forms found\nNo notes found").headD ""
        = "ABCDEFGHIJKLMNOPQRSTUVWXYZ" ∧
      ("ABCDEFGHIJKLMNOPQRSTUVWXYZ" : String) ≠ "ABCDEFGHIJKLMNOPQRST" :=
  ⟨by rfl, by decide, by decide⟩

/-- C4 amended: the filename stem is the path-separator-stripped name
truncated to 20 characters and whitespace-trimmed, while the document
header is the untruncated stripped name (the document text begins with
it); the two coincide only when truncation and trimming change nothing. -/
theorem c4_name_truncation (env : Env) (sF sN : Sched) (cid : String) (data : Contact)
    (fn doc : String) (hc : env.contact cid = .val data)
    (hr : _process_contact env sF sN cid = .ok (some (fn, doc))) :
    fn = pyStrip (pySlice (stripSeps (data.full_name.getD ("MissingName" ++ cid))) 20)
        ++ ".txt" ∧
      (stripSeps (data.full_name.getD ("MissingName" ++ cid)) ≠ "" →
        ∃ rest, doc = stripSeps (data.full_name.getD ("MissingName" ++ cid)) ++ rest) := by
  simp only [_process_contact, hc] at hr
  cases hco : contact_info_of env sF sN cid data with
  | error e =>
    rw [hco] at hr
    exact absurd hr (by simp)
  | ok info =>
    rw [hco] at hr
    simp only [Except.ok.injEq, Option.some.injEq, Prod.mk.injEq] at hr
    obtain ⟨hfn, hdoc⟩ := hr
    refine ⟨hfn.symm, fun hname => ?_⟩
    have hinfo : ∃ fd nd, info = contactInfo env data
        (stripSeps (data.full_name.getD ("MissingName" ++ cid))) fd nd := by
      simp only [contact_info_of] at hco
      cases hf : formsEntry env sF data with
      | error e =>
        rw [hf] at hco
        exact absurd hco (by simp)
      | ok fd =>
        rw [hf] at hco
        cases hn : notesEntry env sN data with
        | error e =>
          rw [hn] at hco
          exact absurd hco (by simp)
        | ok nd =>
          rw [hn] at hco
          simp only [Except.ok.injEq] at hco
          exact ⟨fd, nd, hco.symm⟩
    obtain ⟨fd, nd, rfl⟩ := hinfo
    rw [← hdoc]
    have hbne : ((stripSeps (data.full_name.getD ("MissingName" ++ cid))) != "") = true := by
      simpa using hname
    have hfil : (contactInfo env data
        (stripSeps (data.full_name.getD ("MissingName" ++ cid))) fd nd).filter
          (fun s => s != "") =
        stripSeps (data.full_name.getD ("MissingName" ++ cid)) ::
          ([data.details.getD "",
            "Keywords: " ++ pyJoin " " (data.keywords.getD []),
            "Birthday: " ++ data.birthday.getD "",
            "Anniversary: " ++ data.anniversary.getD "",
            addressEntry data.addresses,
            jobEntry env data.companies] ++ extraFieldsSection data.extra_fields ++
            [fd, nd]).filter (fun s => s != "") := by
      unfold contactInfo
      rw [show ([stripSeps (data.full_name.getD ("MissingName" ++ cid)),
          data.details.getD "",
          "Keywords: " ++ pyJoin " " (data.keywords.getD []),
          "Birthday: " ++ data.birthday.getD "",
          "Anniversary: " ++ data.anniversary.getD "",
          addressEntry data.addresses,
          jobEntry env data.companies] : List String) =
          stripSeps (data.full_name.getD ("MissingName" ++ cid)) ::
            [data.details.getD "",
             "Keywords: " ++ pyJoin " " (data.keywords.getD []),
             "Birthday: " ++ data.birthday.getD "",
             "Anniversary: " ++ data.anniversary.getD "",
             addressEntry data.addresses,
             jobEntry env data.companies] from rfl]
      rw [List.cons_append, List.cons_append]
      simp [List.filter_cons, hbne]
    rw [hfil]
    cases hL : ([data.details.getD "",
        "Keywords: " ++ pyJoin " " (data.keywords.getD []),
        "Birthday: " ++ data.birthday.getD "",
        "Anniversary: " ++ data.anniversary.getD "",
        addressEntry data.addresses,
        jobEntry env data.companies] ++ extraFieldsSection data.extra_fields ++
        [fd, nd]).filter (fun s => s != "") with
    | nil => exact ⟨"", by simp [pyJoin]⟩
    | cons a as => exact ⟨"\n" ++ pyJoin "\n" (a :: as), by simp [pyJoin, String.append_assoc]⟩

/-- Witness for the amended C4 at the 26-character contact name. -/
theorem c4_witness :
    ("ABCDEFGHIJKLMNOPQRST.txt" : String) =
        pyStrip (pySlice (stripSeps (cLong.full_name.getD ("MissingName" ++ "1"))) 20)
          ++ ".txt" ∧
      (stripSeps (cLong.full_name.getD ("MissingName" ++ "1")) ≠ "" →
        ∃ rest,
          "ABCDEFGHIJKLMNOPQRSTUVWXYZ\nKeywords: \nBirthday: \nAnniversary: \nNo location found\nNo job information found\nNo forms found\nNo notes found"
            = stripSeps (cLong.full_name.getD ("MissingName" ++ "1")) ++ rest) :=
  c4_name_truncation envLong id id "1" cLong "ABCDEFGHIJKLMNOPQRST.txt"
    "ABCDEFGHIJKLMNOPQRSTUVWXYZ\nKeywords: \nBirthday: \nAnniversary: \nNo location found\nNo job information found\nNo forms found\nNo notes found"
    (by rfl) (by rfl)

/-- C5 counterexample: for the vendor key `extra2` (whose override-table
entry is empty) and a field whose declared `display_name` is present but
empty, the emitted display name is the empty string, not the raw key, so
the claimed first-non-empty resolution fails at step (3). -/
theorem c5_counterexample :
    extra_field_names.lookup "com.marketcircle.daylite/extra2" = some "" ∧
      resolveDisplayName "com.marketcircle.daylite/extra2" ⟨some "v", some ""⟩ = "" ∧
      ("" : String) ≠ "com.marketcircle.daylite/extra2" ∧
      extraFieldsSection (some [("com.marketcircle.daylite/extra2", ⟨some "v", some ""⟩)]) =
        ["\nExtra Fields:", " - : v"] ∧
      " - com.marketcircle.daylite/extra2: v" ∉
        extraFieldsSection (some [("com.marketcircle.daylite/extra2", ⟨some "v", some ""⟩)]) :=
  ⟨by decide, by decide, by decide, by decide, by decide⟩

/-- C5 amended: for an entry with a truthy value, the display name is the
override-table entry when that is present and non-empty; otherwise it is
the field's own declared `display_name` whenever the `display_name` key
is present — even when its value is empty — and the raw key serves as
fallback only when the `display_name` key is absent.  Entries with an
absent or empty value are dropped (leaving only the section header). -/
theorem c5_display_name_resolution (k : String) (f : ExtraField) :
    (∀ v, f.value = some v → v ≠ "" →
      (∀ ov, extra_field_names.lookup k = some ov → ov ≠ "" →
        extraFieldsSection (some [(k, f)]) =
          ["\nExtra Fields:", " - " ++ ov ++ ": " ++ v]) ∧
      ((extra_field_names.lookup k = none ∨ extra_field_names.lookup k = some "") →
        (∀ d, f.display_name = some d →
          extraFieldsSection (some [(k, f)]) =
            ["\nExtra Fields:", " - " ++ d ++ ": " ++ v]) ∧
        (f.display_name = none →
          extraFieldsSection (some [(k, f)]) =
            ["\nExtra Fields:", " - " ++ k ++ ": " ++ v]))) ∧
      ((f.value = none ∨ f.value = some "") →
        extraFieldsSection (some [(k, f)]) = ["\nExtra Fields:"]) := by
  constructor
  · intro v hv hvne
    constructor
    · intro ov hov hovne
      simp [extraFieldsSection, resolveDisplayName, hov, hovne, hv, hvne]
    · intro hlk
      constructor
      · intro d hd
        rcases hlk with h | h <;>
          simp [extraFieldsSection, resolveDisplayName, h, hd, hv, hvne]
      · intro hd
        rcases hlk with h | h <;>
          simp [extraFieldsSection, resolveDisplayName, h, hd, hv, hvne]
  · intro hv
    rcases hv with h | h <;> simp [extraFieldsSection, h]

/-- Witness for the amended C5: the `extra3` override wins for a field
that also declares its own display name. -/
theorem c5_witness :
    extraFieldsSection (some [("com.marketcircle.daylite/extra3", ⟨some "X", some "dn"⟩)]) =
      ["\nExtra Fields:", " - " ++ "DCA/Distrib" ++ ": " ++ "X"] :=
  ((c5_display_name_resolution "com.marketcircle.daylite/extra3" ⟨some "X", some "dn"⟩).1
    "X" rfl (by decide)).1 "DCA/Distrib" (by decide) (by decide)

/-- C9 counterexample: a run whose listing fetch fails terminates with
the same exit status (0) as a run that completes normally and writes a
file, refuting the claim that the two are distinguished. -/
theorem c9_counterexample :
    envNoListing.listing = .fail ∧
      process_all_contacts envNoListing id id = [] ∧
      process_all_contacts envBare id id = [.wrote "Bob.txt"
        "Bob\nKeywords: \nBirthday: \nAnniversary: \nNo location found\nNo job information found\nNo forms found\nNo notes found"] ∧
      exit_status envNoListing id id = 0 ∧
      exit_status envBare id id = 0 :=
  ⟨rfl, by rfl, by rfl, rfl, rfl⟩

/-- C9 amended: `main` installs no distinct exit path — per-contact
exceptions are caught inside `process_all_contacts` and a failed or
empty listing merely yields an empty batch — so the process exit status
is 0 after every run, regardless of listing-level failure, of an empty
listing, or of individual contact failures. -/
theorem c9_exit_status_constant : ∀ (env : Env) (sF sN : Sched),
    exit_status env sF sN = 0 :=
  fun _ _ _ => rfl

end Daylite
